import Mathlib

/-!
Shallow embedding of the plotman CLI entry module (src/plotman/__main__.py)
and proofs about its job selection, lifecycle commands, configuration
loading and the archive loop.

Modelling conventions:
- Python functions become Lean functions; code that raises becomes
  Option/Except-style results (none or an explicit exit-code constructor).
- The running-jobs view produced by Job.get_running_jobs is passed in
  explicitly as a list of jobs.
- Console output relevant to the claims is returned as a list of printed
  lines; process signals and file removals performed by main_kill are
  returned as an explicit event trace.
- Parts of the repository that are imported by __main__.py but whose source
  is not available here (the job, manager, archive modules) are modelled
  from the specification document; each such definition carries a doc
  comment starting with "Modelled from the spec:".
-/

set_option autoImplicit false

namespace Plotman

/-- Character-list test: the first list leads the second.  Used to embed the
string matching done on plot ids and on file names, with structural
recursion so that all proofs can evaluate it. -/
def str_lead : List Char → List Char → Bool
  | [], _ => true
  | _ :: _, [] => false
  | p :: ps, c :: cs => p == c && str_lead ps cs

/-- Python str.startswith: s begins with pat. -/
def starts_with (s pat : String) : Bool := str_lead pat.data s.data

/-- Python str.endswith: s finishes with pat (used by Configuration.from_file
on the configuration file name). -/
def ends_in (s pat : String) : Bool := str_lead pat.data.reverse s.data.reverse

/-- Process state of a worker, from the spec data model for Job.state
(Running, Suspended, Terminated). -/
inductive ProcState
  | running
  | suspended
  | terminated
  deriving DecidableEq

/-- One running job as the lifecycle commands of __main__.py see it: its
plot id, its temp directories and its current process state. -/
structure Job where
  plot_id : String
  tmp_dirs : List String
  procState : ProcState
  deriving DecidableEq

/-- Modelled from the spec: Job.suspend (module job, source not in src/)
sends a pause signal; the process stops but keeps its files. -/
def Job.suspend (j : Job) : Job := { j with procState := ProcState.suspended }

/-- Modelled from the spec: Job.cancel (module job, source not in src/)
terminates the process. -/
def Job.cancel (j : Job) : Job := { j with procState := ProcState.terminated }

/-- Modelled from the spec: Job.resume (module job, source not in src/)
sends a continue signal. -/
def Job.resume (j : Job) : Job := { j with procState := ProcState.running }

/-- A temp file on disk: the directory holding it and the plot id that its
name carries under the worker's naming convention. -/
structure TempFile where
  dir : String
  plotId : String
  deriving DecidableEq

/-- Modelled from the spec: Job.get_temp_files (module job, source not in
src/) enumerates the files under the job's tmp_dirs whose names match the
job's plot_id naming convention. -/
def get_temp_files (j : Job) (files : List TempFile) : List TempFile :=
  files.filter (fun f => decide (f.dir ∈ j.tmp_dirs ∧ f.plotId = j.plot_id))

/-- Modelled from the spec: manager.select_jobs_by_partial_id (module
manager, source not in src/), a case-sensitive exact prefix match of the
user string against each plot_id. -/
def select_jobs_by_id_pfx (jobs : List Job) (pfx : String) : List Job :=
  jobs.filter (fun j => starts_with j.plot_id pfx)

/-- Outcome of select_jobs: either a selected job list or SystemExit with
an exit code. -/
inductive SelectResult
  | ok (selected : List Job)
  | systemExit (code : Nat)
  deriving DecidableEq

/-- select_jobs (__main__.py lines 278-296) over the current running jobs
and the positional idprefix arguments.  Returns the printed lines together
with the outcome.  The empty-argument arm is unreachable in the program
because the argument is declared with nargs plus; an uncaught IndexError
would end the interpreter with exit status 1, which is what the arm
records. -/
def select_jobs (jobs : List Job) (idpfx : List String) : List String × SelectResult :=
  match idpfx with
  | [] => ([], SelectResult.systemExit 1)
  | p :: _ =>
    if p = "all" then
      ([], SelectResult.ok jobs)
    else
      let selected := select_jobs_by_id_pfx jobs p
      if selected.length = 0 then
        (["Error: " ++ p ++ " matched no jobs."], SelectResult.systemExit 1)
      else if 1 < selected.length then
        (("Error: \"" ++ p ++ "\" matched multiple jobs:") ::
            selected.map (fun j => "  " ++ j.plot_id),
          SelectResult.ok [])
      else
        ([], SelectResult.ok selected)

/-- main_suspend (__main__.py lines 262-267): the process exit status and
the plot ids of the jobs the command actually suspends.  A SystemExit
raised inside select_jobs propagates through main into sys.exit. -/
def main_suspend (jobs : List Job) (idpfx : List String) : Nat × List String :=
  match select_jobs jobs idpfx with
  | (_, SelectResult.systemExit c) => (c, [])
  | (_, SelectResult.ok selected) => (0, selected.map (fun j => j.plot_id))

/-- Observable actions of main_kill on the operating system, in the order
they are performed. -/
inductive KillEvent
  | suspend (id : String)
  | terminate (id : String)
  | removeFile (f : TempFile)
  deriving DecidableEq

/-- Body of the main_kill loop (__main__.py lines 242-258) for one selected
job: suspend first, list the temp files, prompt; on confirmation cancel the
process and remove each listed file, otherwise leave the job as it now is.
Returns the updated job, the surviving files and the event trace. -/
def killOne (confirm : Bool) (j : Job) (files : List TempFile) :
    Job × List TempFile × List KillEvent :=
  let j1 := Job.suspend j
  let tfs := get_temp_files j1 files
  if confirm then
    (Job.cancel j1,
      files.filter (fun f => decide (f ∉ tfs)),
      KillEvent.suspend j.plot_id :: KillEvent.terminate j.plot_id ::
        tfs.map KillEvent.removeFile)
  else
    (j1, files, [KillEvent.suspend j.plot_id])

/-- main_kill (__main__.py lines 240-259): applies the loop body to each
selected job in order, threading the filesystem through, with answers
giving the confirmation typed for each plot id. -/
def main_kill (answers : String → Bool) (selected : List Job) (files : List TempFile) :
    List Job × List TempFile × List KillEvent :=
  match selected with
  | [] => ([], files, [])
  | j :: js =>
    let r := killOne (answers j.plot_id) j files
    let rest := main_kill answers js r.2.1
    (r.1 :: rest.1, rest.2.1, r.2.2 ++ rest.2.2)

/-- Observable actions of the main_archive loop. -/
inductive ArchiveEvent
  | sleep (seconds : Nat)
  | refreshJobs (log : Option String)
  | archiveTick
  deriving DecidableEq

/-- Iteration i of the main_archive while-loop (__main__.py lines 214-220):
every iteration after the first sleeps 60 seconds (the hard-coded literal
of time.sleep(60)) and re-reads the jobs from the log directory before the
archive pass. -/
def main_archive_iter (lg : Option String) (i : Nat) : List ArchiveEvent :=
  if i = 0 then [ArchiveEvent.archiveTick]
  else [ArchiveEvent.sleep 60, ArchiveEvent.refreshJobs lg, ArchiveEvent.archiveTick]

/-- Assoc-list read embedding a Python dict string lookup; a missing key
(KeyError) becomes none. -/
def assoc_get : List (String × String) → String → Option String
  | [], _ => none
  | (k, v) :: rest, key => if k = key then some v else assoc_get rest key

/-- Parsed YAML configuration document with its three sections; a missing
section (KeyError on the dict) is none.  Section contents are kept as
string key-value pairs. -/
structure ConfigData where
  directories : Option (List (String × String))
  scheduling : Option (List (String × String))
  plotting : Option (List (String × String))
  deriving DecidableEq

/-- The float(...) conversion applied to the polling time (line 101),
modelled on decimal natural literals: none is the ValueError of a
non-numeric string. -/
def parse_time (s : String) : Option Nat :=
  if !s.data.isEmpty && s.data.all Char.isDigit then
    some (s.data.foldl (fun n c => 10 * n + (c.toNat - 48)) 0)
  else none

/-- Configuration object: the raw data plus the polling_time computed
eagerly in the constructor (line 101). -/
structure Configuration where
  data : ConfigData
  polling_time : Nat
  deriving DecidableEq

/-- Configuration constructor (__main__.py lines 98-101): reads
data of key scheduling, then its polling_time_s entry, then converts it;
none where Python raises KeyError or ValueError. -/
def Configuration.init (data : ConfigData) : Option Configuration :=
  match data.scheduling with
  | none => none
  | some sched =>
    match assoc_get sched "polling_time_s" with
    | none => none
    | some v =>
      match parse_time v with
      | none => none
      | some n => some ⟨data, n⟩

/-- The cfg.log property (__main__.py lines 115-117): reads the log entry
of the directories section lazily; none where Python raises KeyError. -/
def Configuration.log (cfg : Configuration) : Option String :=
  match cfg.data.directories with
  | none => none
  | some dirs => assoc_get dirs "log"

/-- Configuration.from_file (__main__.py lines 119-132) over an abstract
filesystem fs, mapping a path to its parsed YAML document when the file
both opens and parses: an unopenable or unparseable file is none, a name
not ending in .yaml is the NotImplementedError branch, and otherwise the
constructor runs. -/
def Configuration.from_file (fs : String → Option ConfigData) (path : String) :
    Option Configuration :=
  match fs path with
  | none => none
  | some data => if ends_in path ".yaml" then Configuration.init data else none

/-- Subcommands registered by arg_parser (__main__.py lines 39-92). -/
inductive Cmd
  | status
  | dirs
  | interactive
  | dsched
  | plot
  | archive
  | details
  | files
  | kill
  | suspend
  | resume
  | analyze
  deriving DecidableEq

/-- Outcome of main (__main__.py lines 135-151) up to the point where the
dispatched subcommand body takes over: an uncaught exception from the
configuration load, the missing-subcommand help path, or a dispatch of the
selected subcommand with the loaded configuration. -/
inductive MainOutcome
  | startupFailure
  | helpExit
  | dispatched (c : Cmd) (cfg : Configuration)
  deriving DecidableEq

/-- main (__main__.py lines 135-151): after argument parsing (already
reflected in cmd), the configuration is loaded from the literal relative
path config.yaml, and only then is the subcommand function dispatched. -/
def main (fs : String → Option ConfigData) (cmd : Option Cmd) : MainOutcome :=
  match Configuration.from_file fs "config.yaml" with
  | none => MainOutcome.startupFailure
  | some cfg =>
    match cmd with
    | none => MainOutcome.helpExit
    | some c => MainOutcome.dispatched c cfg

/-- Trace of the first iters iterations of the main_archive loop
(__main__.py lines 209-221) for a loaded configuration; the job refresh
reads cfg.log, and the sleep time is the hard-coded 60. -/
def main_archive_trace (cfg : Configuration) (iters : Nat) : List ArchiveEvent :=
  ((List.range iters).map (main_archive_iter (Configuration.log cfg))).flatten

/-- Modelled from the spec: the scheduling section's archive polling
interval in seconds, the field main_archive would have to read for its
sleep to be configurable; the source never reads any such field. -/
def archive_interval_of (cfg : Configuration) : Option Nat :=
  match cfg.data.scheduling with
  | none => none
  | some sched =>
    match assoc_get sched "archive_polling_time_s" with
    | none => none
    | some v => parse_time v

/-- main_status (__main__.py lines 170-174) immediately reaches cfg.log
through Job.get_running_jobs; none models the KeyError raised inside the
subcommand when the directories section is missing. -/
def main_status_result (cfg : Configuration) : Option Nat :=
  match Configuration.log cfg with
  | none => none
  | some _ => some 0

/-- The idprefix positional argument is declared with nargs plus
(__main__.py lines 31-37): the CLI accepts any list of one or more
strings. -/
def idpfx_arg_ok (xs : List String) : Bool := !xs.isEmpty

/-- Two jobs whose plot ids both start with the literal string all. -/
def jobsAllPfx : List Job :=
  [⟨"allx", [], ProcState.running⟩, ⟨"ally", [], ProcState.running⟩]

/-- One job whose plot id does not start with all. -/
def jobsC3 : List Job := [⟨"abc3", [], ProcState.running⟩]

/-- One job whose plot id does not start with all, for the exit-status
counterexample. -/
def jobsC9 : List Job := [⟨"xyz9", [], ProcState.running⟩]

/-- Two jobs sharing the id lead aa, for the ambiguity witness. -/
def jobsC2w : List Job :=
  [⟨"aa1", [], ProcState.running⟩, ⟨"aa2", [], ProcState.running⟩]

/-- A running job about to be killed, for the declined-confirmation
counterexample. -/
def j4 : Job := ⟨"c4job", ["tdir"], ProcState.running⟩

/-- The temp file of j4. -/
def file4 : TempFile := ⟨"tdir", "c4job"⟩

/-- A running job for the confirmed-kill witness. -/
def j5 : Job := ⟨"idA", ["t1"], ProcState.running⟩

/-- A filesystem holding files of two different jobs. -/
def files5 : List TempFile := [⟨"t1", "idA"⟩, ⟨"t1", "idB"⟩, ⟨"t2", "idA"⟩]

/-- The foreign job's file inside files5. -/
def tfB : TempFile := ⟨"t1", "idB"⟩

/-- A configuration document whose scheduling section carries an archive
polling interval of 30 seconds. -/
def cfg30data : ConfigData :=
  ⟨none, some [("polling_time_s", "1"), ("archive_polling_time_s", "30")], none⟩

/-- The loaded configuration for cfg30data. -/
def cfg30 : Configuration := ⟨cfg30data, 1⟩

/-- A configuration document with a valid scheduling section but no
directories section. -/
def dataNoDirs : ConfigData := ⟨none, some [("polling_time_s", "5")], none⟩

/-- A filesystem whose config.yaml parses to dataNoDirs. -/
def fsNoDirs : String → Option ConfigData :=
  fun p => if p = "config.yaml" then some dataNoDirs else none

/-- A configuration document lacking the scheduling section. -/
def dataNoSched : ConfigData := ⟨some [("log", "l")], none, none⟩

/-- A complete configuration document. -/
def dataFull : ConfigData :=
  ⟨some [("log", "logs")], some [("polling_time_s", "2")], some []⟩

/-- Helper: the literal path used by main does end in .yaml. -/
theorem config_yaml_is_yaml : ends_in "config.yaml" ".yaml" = true := by decide

/-- Claim C1: with the literal id argument all, select_jobs returns exactly
the full running-job list, unchanged and in order, with nothing printed and
no filtering applied. -/
theorem select_jobs_all_returns_jobs (jobs : List Job) (rest : List String) :
    select_jobs jobs ("all" :: rest) = ([], SelectResult.ok jobs) := rfl

/-- Claim C8: the CLI accepts one or more idprefix arguments, yet selection
and the commands built on it use only the first one; any further arguments
do not change the result. -/
theorem only_first_idpfx_used (jobs : List Job) (p : String) (rest : List String) :
    idpfx_arg_ok (p :: rest) = true
    ∧ select_jobs jobs (p :: rest) = select_jobs jobs [p]
    ∧ main_suspend jobs (p :: rest) = main_suspend jobs [p] := ⟨rfl, rfl, rfl⟩

/-- Claim C2 counterexample: with the user string all and two jobs whose
plot ids both start with all, more than one job matches the supplied
string, yet nothing is printed and the suspend command acts on every job
instead of performing no action. -/
theorem ambiguous_all_pfx_counterexample :
    1 < (select_jobs_by_id_pfx jobsAllPfx "all").length
    ∧ (select_jobs jobsAllPfx ["all"]).1 = []
    ∧ main_suspend jobsAllPfx ["all"] = (0, ["allx", "ally"]) := by decide

/-- Claim C2 (amended): for every job list and every id string other than
the literal all, when more than one plot_id matches, selection prints the
error header followed by every matching plot_id and returns the empty
selection, so the requested operation performs no action on any job. -/
theorem ambiguous_match_aborts (jobs : List Job) (p : String) (rest : List String)
    (hp : p ≠ "all") (hlen : 1 < (select_jobs_by_id_pfx jobs p).length) :
    select_jobs jobs (p :: rest)
      = (("Error: \"" ++ p ++ "\" matched multiple jobs:") ::
          (select_jobs_by_id_pfx jobs p).map (fun j => "  " ++ j.plot_id),
        SelectResult.ok [])
    ∧ main_suspend jobs (p :: rest) = (0, []) := by
  have hne : ¬ (select_jobs_by_id_pfx jobs p).length = 0 := by omega
  have hsel : select_jobs jobs (p :: rest)
      = (("Error: \"" ++ p ++ "\" matched multiple jobs:") ::
          (select_jobs_by_id_pfx jobs p).map (fun j => "  " ++ j.plot_id),
        SelectResult.ok []) := by
    simp [select_jobs, hp, hne, hlen]
  exact ⟨hsel, by simp [main_suspend, hsel]⟩

/-- Claim C2 witness: a concrete ambiguous selection with two matches. -/
theorem ambiguous_match_aborts_w :
    select_jobs jobsC2w ["aa"]
      = (("Error: \"" ++ "aa" ++ "\" matched multiple jobs:") ::
          (select_jobs_by_id_pfx jobsC2w "aa").map (fun j => "  " ++ j.plot_id),
        SelectResult.ok [])
    ∧ main_suspend jobsC2w ["aa"] = (0, []) :=
  ambiguous_match_aborts jobsC2w "aa" [] (by decide) (by decide)

/-- Claim C3 counterexample: with the user string all and one job whose
plot id does not start with all, zero jobs match the supplied string, yet
no error is printed, the command exits 0, and the suspend operation acts on
the job rather than being aborted. -/
theorem nomatch_all_pfx_counterexample :
    (select_jobs_by_id_pfx jobsC3 "all").length = 0
    ∧ (select_jobs jobsC3 ["all"]).1 = []
    ∧ main_suspend jobsC3 ["all"] = (0, ["abc3"]) := by decide

/-- Claim C3 (amended): for every job list and every id string other than
the literal all, when zero jobs match, an error line naming the supplied
string is printed and the command is aborted through SystemExit(1) with no
action taken on any job. -/
theorem nomatch_aborts_with_error (jobs : List Job) (p : String) (rest : List String)
    (hp : p ≠ "all") (h0 : (select_jobs_by_id_pfx jobs p).length = 0) :
    select_jobs jobs (p :: rest)
      = (["Error: " ++ p ++ " matched no jobs."], SelectResult.systemExit 1)
    ∧ main_suspend jobs (p :: rest) = (1, []) := by
  have hsel : select_jobs jobs (p :: rest)
      = (["Error: " ++ p ++ " matched no jobs."], SelectResult.systemExit 1) := by
    simp [select_jobs, hp, h0]
  exact ⟨hsel, by simp [main_suspend, hsel]⟩

/-- Claim C3 witness: a concrete no-match selection. -/
theorem nomatch_aborts_with_error_w :
    select_jobs [⟨"b3", [], ProcState.running⟩] ["zz"]
      = (["Error: " ++ "zz" ++ " matched no jobs."], SelectResult.systemExit 1)
    ∧ main_suspend [⟨"b3", [], ProcState.running⟩] ["zz"] = (1, []) :=
  nomatch_aborts_with_error [⟨"b3", [], ProcState.running⟩] "zz" [] (by decide) (by decide)

/-- Claim C4 counterexample: declining the kill confirmation leaves the
temp files alone but does change the job's process state, because the job
was suspended before the prompt and is not resumed. -/
theorem kill_declined_state_changed :
    j4.procState = ProcState.running
    ∧ (killOne false j4 [file4]).1.procState = ProcState.suspended
    ∧ (killOne false j4 [file4]).2.1 = [file4]
    ∧ (killOne false j4 [file4]).1.procState ≠ j4.procState := by decide

/-- Claim C4 (amended): when the user declines the kill confirmation, the
job is not terminated and no temp files are deleted, but the job's process
state does change: having been suspended before the prompt, it is left
suspended, and the user must resume it manually. -/
theorem kill_declined_leaves_suspended (j : Job) (files : List TempFile) :
    killOne false j files = (Job.suspend j, files, [KillEvent.suspend j.plot_id])
    ∧ (killOne false j files).1.procState = ProcState.suspended := ⟨rfl, rfl⟩

/-- Claim C5: a confirmed kill of a selected job suspends it, then
terminates it, then removes exactly the temp files carrying that job's
plot_id under its tmp_dirs, in that order; files carrying any other plot id
survive.  The singleton main_kill run agrees with the loop body. -/
theorem kill_confirmed_order_cleanup (j : Job) (files : List TempFile) :
    (killOne true j files).2.2
      = KillEvent.suspend j.plot_id :: KillEvent.terminate j.plot_id ::
          (get_temp_files j files).map KillEvent.removeFile
    ∧ (killOne true j files).1.procState = ProcState.terminated
    ∧ (∀ f, f ∈ (killOne true j files).2.1 ↔
        f ∈ files ∧ ¬ (f.dir ∈ j.tmp_dirs ∧ f.plotId = j.plot_id))
    ∧ (∀ f, f ∈ files → f.plotId ≠ j.plot_id → f ∈ (killOne true j files).2.1)
    ∧ main_kill (fun _ => true) [j] files
      = ([(killOne true j files).1], (killOne true j files).2.1, (killOne true j files).2.2) := by
  refine ⟨rfl, rfl, fun f => ?_, fun f hf hne => ?_, by simp [main_kill]⟩
  · simp only [killOne, get_temp_files, Job.suspend, Job.cancel, if_true,
      List.mem_filter, decide_eq_true_eq]
    tauto
  · simp only [killOne, get_temp_files, Job.suspend, Job.cancel, if_true,
      List.mem_filter, decide_eq_true_eq]
    tauto

/-- Claim C5 witness: in a filesystem holding files of two jobs, the other
job's file survives the confirmed kill. -/
theorem kill_confirmed_order_cleanup_w : tfB ∈ (killOne true j5 files5).2.1 :=
  (kill_confirmed_order_cleanup j5 files5).2.2.2.1 tfB (by decide) (by decide)

/-- Claim C6 counterexample: for a configuration whose scheduling section
carries an archive polling interval of 30 seconds, the archive loop still
sleeps 60 seconds between its ticks and never sleeps the configured 30. -/
theorem archive_sleep_ignores_config :
    archive_interval_of cfg30 = some 30
    ∧ ArchiveEvent.sleep 60 ∈ main_archive_trace cfg30 2
    ∧ ArchiveEvent.sleep 30 ∉ main_archive_trace cfg30 2 := by decide

/-- Claim C6 (amended): between successive archive ticks the loop sleeps a
fixed 60 seconds, hard-coded in main_archive, for every configuration: no
archive polling interval of the scheduling section is consulted, so the
interval is in particular independent of the admission loop's configured
polling time. -/
theorem archive_sleep_fixed_sixty (cfg : Configuration) (iters s : Nat)
    (h : ArchiveEvent.sleep s ∈ main_archive_trace cfg iters) : s = 60 := by
  simp only [main_archive_trace, List.mem_flatten, List.mem_map] at h
  obtain ⟨l, ⟨i, hi, rfl⟩, hx⟩ := h
  by_cases h0 : i = 0
  · simp [main_archive_iter, h0] at hx
  · simp [main_archive_iter, h0] at hx
    exact hx

/-- Claim C6 witness: the fixed sleep observed on a concrete trace. -/
theorem archive_sleep_fixed_sixty_w :
    ArchiveEvent.sleep 60 ∈ main_archive_trace cfg30 2 ∧ 60 = 60 :=
  ⟨by decide, archive_sleep_fixed_sixty cfg30 2 60 (by decide)⟩

/-- Claim C7 counterexample: a configuration that parses and has a valid
scheduling section but no directories section is malformed, yet main does
not fail at startup: the status subcommand is dispatched, and only inside
it does the missing directories field surface as a KeyError. -/
theorem missing_dirs_not_startup_fatal :
    dataNoDirs.directories = none
    ∧ main fsNoDirs (some Cmd.status) = MainOutcome.dispatched Cmd.status ⟨dataNoDirs, 5⟩
    ∧ main_status_result ⟨dataNoDirs, 5⟩ = none := by decide

/-- Claim C7 (amended): an invocation whose configuration file is
unloadable, or whose scheduling section or polling_time_s entry is missing
or non-numeric, fails at startup before any loop or subcommand runs; a
configuration missing only other fields such as directories passes startup
and fails only when the dispatched subcommand reads the missing field. -/
theorem config_load_failures_startup_fatal (fs : String → Option ConfigData) (cmd : Option Cmd) :
    (Configuration.from_file fs "config.yaml" = none →
        main fs cmd = MainOutcome.startupFailure)
    ∧ (∀ data, fs "config.yaml" = some data → data.scheduling = none →
        main fs cmd = MainOutcome.startupFailure)
    ∧ (∀ data sched, fs "config.yaml" = some data → data.scheduling = some sched →
        assoc_get sched "polling_time_s" = none →
        main fs cmd = MainOutcome.startupFailure)
    ∧ (∀ data sched v, fs "config.yaml" = some data → data.scheduling = some sched →
        assoc_get sched "polling_time_s" = some v → parse_time v = none →
        main fs cmd = MainOutcome.startupFailure) := by
  refine ⟨fun h => by simp [main, h], fun data hfs hsch => ?_,
    fun data sched hfs hsch hpt => ?_, fun data sched v hfs hsch hpt hv => ?_⟩
  · have hff : Configuration.from_file fs "config.yaml" = none := by
      simp [Configuration.from_file, hfs, config_yaml_is_yaml, Configuration.init, hsch]
    simp [main, hff]
  · have hff : Configuration.from_file fs "config.yaml" = none := by
      simp [Configuration.from_file, hfs, config_yaml_is_yaml, Configuration.init, hsch, hpt]
    simp [main, hff]
  · have hff : Configuration.from_file fs "config.yaml" = none := by
      simp [Configuration.from_file, hfs, config_yaml_is_yaml, Configuration.init, hsch, hpt, hv]
    simp [main, hff]

/-- Claim C7 witness: a parseable configuration lacking the scheduling
section makes main fail at startup. -/
theorem config_load_failures_startup_fatal_w :
    (fun _ : String => some dataNoSched) "config.yaml" = some dataNoSched
    ∧ main (fun _ : String => some dataNoSched) (some Cmd.plot) = MainOutcome.startupFailure :=
  ⟨rfl, (config_load_failures_startup_fatal (fun _ : String => some dataNoSched)
    (some Cmd.plot)).2.1 dataNoSched rfl rfl⟩

/-- Claim C9 counterexample: the supplied string all matches zero jobs in
this job list, yet the suspend command exits with status 0 and acts on the
job, instead of terminating with exit status 1. -/
theorem exit_code_all_pfx_counterexample :
    (select_jobs_by_id_pfx jobsC9 "all").length = 0
    ∧ main_suspend jobsC9 ["all"] = (0, ["xyz9"]) := by decide

/-- Claim C9 (amended): for every id string other than the literal all, the
exit status distinguishes the two selection failures asymmetrically: zero
matches terminate the command with exit status 1, while more than one
match completes normally with exit status 0 after performing no action. -/
theorem exit_code_asymmetry (jobs : List Job) (p : String) (rest : List String)
    (hp : p ≠ "all") :
    ((select_jobs_by_id_pfx jobs p).length = 0 →
        main_suspend jobs (p :: rest) = (1, []))
    ∧ (1 < (select_jobs_by_id_pfx jobs p).length →
        main_suspend jobs (p :: rest) = (0, [])) := by
  constructor
  · intro h0
    simp [main_suspend, select_jobs, hp, h0]
  · intro h1
    have hne : ¬ (select_jobs_by_id_pfx jobs p).length = 0 := by omega
    simp [main_suspend, select_jobs, hp, hne, h1]

/-- Claim C9 witness: a concrete zero-match invocation exits 1 with no
action. -/
theorem exit_code_asymmetry_w :
    (select_jobs_by_id_pfx [⟨"m9", [], ProcState.running⟩] "q9").length = 0
    ∧ main_suspend [⟨"m9", [], ProcState.running⟩] ["q9"] = (1, []) :=
  ⟨by decide, (exit_code_asymmetry [⟨"m9", [], ProcState.running⟩] "q9" []
    (by decide)).1 (by decide)⟩

/-- Claim C10: every invocation of main reads the filesystem only at the
literal relative path config.yaml; a failed load means no subcommand of any
kind is dispatched, and a dispatched subcommand certifies that the load
succeeded with the configuration it received. -/
theorem config_loaded_before_dispatch :
    (∀ fs fs' cmd, fs "config.yaml" = fs' "config.yaml" → main fs cmd = main fs' cmd)
    ∧ (∀ fs cmd, Configuration.from_file fs "config.yaml" = none →
        main fs cmd = MainOutcome.startupFailure)
    ∧ (∀ fs cmd c cfg, main fs cmd = MainOutcome.dispatched c cfg →
        Configuration.from_file fs "config.yaml" = some cfg) := by
  refine ⟨fun fs fs' cmd h => ?_, fun fs cmd h => by simp [main, h],
    fun fs cmd c cfg h => ?_⟩
  · simp [main, Configuration.from_file, h]
  · cases hf : Configuration.from_file fs "config.yaml" with
    | none => simp [main, hf] at h
    | some cfg0 =>
      cases cmd with
      | none => simp [main, hf] at h
      | some c0 =>
        simp [main, hf] at h
        rw [h.2]

/-- Claim C10 witness: a missing config.yaml blocks even the
configuration-free interactive subcommand, and main is insensitive to the
filesystem outside config.yaml. -/
theorem config_loaded_before_dispatch_w :
    main (fun _ : String => none) (some Cmd.interactive) = MainOutcome.startupFailure
    ∧ main (fun p => if p = "config.yaml" then some dataFull else none) (some Cmd.analyze)
      = main (fun _ : String => some dataFull) (some Cmd.analyze) :=
  ⟨config_loaded_before_dispatch.2.1 (fun _ : String => none) (some Cmd.interactive) rfl,
    config_loaded_before_dispatch.1
      (fun p => if p = "config.yaml" then some dataFull else none)
      (fun _ : String => some dataFull) (some Cmd.analyze) (by decide)⟩

end Plotman
